import Mathlib

/-!
# Verification of the xtts-api-server compatibility shim layer

Shallow embedding of the runtime compatibility patches in
`xtts_api_server/compatibility_fix.py`, `xtts_api_server/tts_config_fix.py`
and `xtts_api_server/pytorch_fix.py`, together with theorems settling the
specification claims about them.

The Python code wraps a handful of external callables (builtins.issubclass,
coqpit's `_deserialize`, `TTS.config.load_config`, `torch.load`,
`TTS.utils.io.load_fsspec`) and installs an import hook.  We embed:

* the wrapper bodies as Lean functions parameterised by the wrapped
  ("original") callable, with Python exceptions modelled as `Except` values
  carrying an exception class and a message string;
* the message-substring tests (`"..." in str(e)`) as an executable substring
  check on strings;
* the global rebinding performed by the patch-installation procedure as a
  pure state transformer over a record of current bindings, where a binding
  is a syntax tree recording which wrapper wraps which;
* the `TTSPatchImporter.find_spec` import hook as a fuel-indexed function,
  since the source recursion (the hook iterates over `sys.meta_path`, whose
  first element is the hook itself) is unbounded.
-/

/-! ## String containment

Python's `needle in haystack` substring test, as an executable check on
character lists. -/

/-- `listStart pat l` is true when `pat` is an initial segment of `l`. -/
def listStart : List Char → List Char → Bool
  | [], _ => true
  | _ :: _, [] => false
  | a :: as, b :: bs => a == b && listStart as bs

/-- `listHas pat l` is true when `pat` occurs contiguously inside `l`. -/
def listHas (pat : List Char) : List Char → Bool
  | [] => listStart pat []
  | b :: bs => listStart pat (b :: bs) || listHas pat bs

/-- Python's `pat in hay` substring test on strings. -/
def strHas (hay pat : String) : Bool :=
  listHas pat.toList hay.toList

/-! ## Python values and exceptions -/

/-- The Python values the shim inspects.  The wrappers only ever test whether
a value is a class (`inspect.isclass`) or a float (`isinstance(x, float)`),
and otherwise pass values through opaquely, so floats are carried as an
opaque identifier (no floating-point arithmetic occurs in the shim). -/
inductive PyVal where
  | vNone
  | vBool (b : Bool)
  | vInt (n : Int)
  | vFloat (id : Nat)
  | vStr (s : String)
  | vClass (name : String)
deriving DecidableEq, Repr

/-- `inspect.isclass`. -/
def isClass : PyVal → Bool
  | .vClass _ => true
  | _ => false

/-- `isinstance(x, float)`. -/
def isFloat : PyVal → Bool
  | .vFloat _ => true
  | _ => false

/-- The exception classes the shim distinguishes: it catches `TypeError`
(and in two places also `ValueError`); everything else propagates. -/
inductive ExcClass where
  | typeError
  | valueError
  | otherError
deriving DecidableEq, Repr

/-- A raised Python exception: its class plus its rendered message
(`str(e)`), which is all the shim ever inspects. -/
structure PyExc where
  cls : ExcClass
  msg : String
deriving DecidableEq, Repr

/-- Result of a Python call: a value, or a raised exception. -/
abbrev PyResult (α : Type) := Except PyExc α

/-! ## compatibility_fix.py: safe_issubclass

```python
def safe_issubclass(arg1, arg2):
    try:
        return original_issubclass(arg1, arg2)
    except TypeError:
        if not inspect.isclass(arg1):
            return False
        raise
```
-/

/-- The wrapper installed by `patch_issubclass`, parameterised by the
original predicate it wraps. -/
def safe_issubclass (original_issubclass : PyVal → PyVal → PyResult Bool)
    (arg1 arg2 : PyVal) : PyResult Bool :=
  match original_issubclass arg1 arg2 with
  | .ok r => .ok r
  | .error e =>
    if e.cls = ExcClass.typeError then
      if !(isClass arg1) then .ok false
      else .error e
    else .error e

/-- Modelled from the spec: the external type-relationship predicate
(`builtins.issubclass`), which "raises on non-type first argument".  Used
only to instantiate witnesses; the subtype relation between two classes is
modelled as name equality, which the claims never depend on. -/
def builtin_issubclass_model (arg1 arg2 : PyVal) : PyResult Bool :=
  match arg1 with
  | .vClass n1 =>
    match arg2 with
    | .vClass n2 => .ok (n1 == n2)
    | _ => .error ⟨ExcClass.typeError, "issubclass() arg 2 must be a class, a tuple of classes, or a union"⟩
  | _ => .error ⟨ExcClass.typeError, "issubclass() arg 1 must be a class"⟩

/-! ## compatibility_fix.py: safe_deserialize

```python
def safe_deserialize(x, field_type):
    try:
        return original_deserialize(x, field_type)
    except (TypeError, ValueError) as e:
        error_msg = str(e)
        if "issubclass() arg 1 must be a class" in error_msg:
            if not inspect.isclass(field_type):
                return x
        elif "does not match" in error_msg and "field type" in error_msg:
            if "float | list[float]" in error_msg and isinstance(x, float):
                return x
            return x
        raise
```
(The logging calls carry no data flow and are omitted.  Note that in the
`elif` branch both paths return `x`; the `isinstance(x, float)` test only
selects which warning is logged.) -/

/-- The wrapper installed by `compatibility_fix.patch_coqpit` over coqpit's
`_deserialize`, parameterised by the original deserializer it wraps. -/
def safe_deserialize (original_deserialize : PyVal → PyVal → PyResult PyVal)
    (x field_type : PyVal) : PyResult PyVal :=
  match original_deserialize x field_type with
  | .ok r => .ok r
  | .error e =>
    if e.cls = ExcClass.typeError ∨ e.cls = ExcClass.valueError then
      if strHas e.msg "issubclass() arg 1 must be a class" then
        if !(isClass field_type) then .ok x
        else .error e
      else if strHas e.msg "does not match" && strHas e.msg "field type" then
        if strHas e.msg "float | list[float]" && isFloat x then .ok x
        else .ok x
      else .error e
    else .error e

/-! ## tts_config_fix.py: patched_deserialize

```python
def patched_deserialize(value, field_type):
    try:
        return original_deserialize(value, field_type)
    except TypeError as e:
        if "issubclass() arg 1 must be a class" in str(e):
            return value
        else:
            raise
```
-/

/-- The wrapper installed by `tts_config_fix.patch_coqpit` over coqpit's
`_deserialize`.  Unlike `safe_deserialize`, it catches only `TypeError` and
returns the value without testing whether `field_type` is a class. -/
def patched_deserialize (original_deserialize : PyVal → PyVal → PyResult PyVal)
    (value field_type : PyVal) : PyResult PyVal :=
  match original_deserialize value field_type with
  | .ok r => .ok r
  | .error e =>
    if e.cls = ExcClass.typeError then
      if strHas e.msg "issubclass() arg 1 must be a class" then .ok value
      else .error e
    else .error e

/-! ## compatibility_fix.py: safe_load_config

```python
def safe_load_config(config_path):
    try:
        return original_load_config(config_path)
    except (TypeError, ValueError) as e:
        error_msg = str(e)
        if "does not match" in error_msg and "field type" in error_msg:
            # (imports json, and BaseTTSConfig from TTS.config)
            with open(config_path, 'r') as f:
                config_dict = json.load(f)
            config = BaseTTSConfig()
            config.from_dict(config_dict)
            return config
        raise
```
The external collaborators — the original loader, `json.load` over the file
at `config_path`, and "construct an empty `BaseTTSConfig` and populate it
from the parsed mapping" — are parameters; each may raise, and a raise
inside the `except` block propagates to the caller uncaught. -/

/-- The wrapper installed over `TTS.config.load_config` by
`apply_all_patches` (an identical wrapper is also installed inside
`patch_coqpit`).  `json_load p` models `json.load(open(p))`;
`base_config_from_dict d` models `BaseTTSConfig().from_dict(d)` returning
the populated config object. -/
def safe_load_config (original_load_config : String → PyResult PyVal)
    (json_load : String → PyResult PyVal)
    (base_config_from_dict : PyVal → PyResult PyVal)
    (config_path : String) : PyResult PyVal :=
  match original_load_config config_path with
  | .ok c => .ok c
  | .error e =>
    if e.cls = ExcClass.typeError ∨ e.cls = ExcClass.valueError then
      if strHas e.msg "does not match" && strHas e.msg "field type" then
        match json_load config_path with
        | .error je => .error je
        | .ok d => base_config_from_dict d
      else .error e
    else .error e

/-! ## tts_config_fix.py: patched_load_config

```python
def patched_load_config(config_path):
    try:
        return original_load_config(config_path)
    except TypeError as e:
        if "issubclass() arg 1 must be a class" in str(e):
            logging.warning(f"TTS config loading error handled: {e}")
            if patch_coqpit():
                return original_load_config(config_path)
            else:
                raise
        else:
            raise
```
This wrapper catches only `TypeError`, matches only the issubclass message,
and its sole fallback is re-running `patch_coqpit()` and retrying the
captured delegate; it contains no JSON parse, no empty-config construction
and no `from_dict` populate. -/

/-- The wrapper installed over `TTS.config.load_config` by
`tts_config_fix.patch_tts_config`.  `retry_load_config p` models the second
`original_load_config(config_path)` call, whose observable behaviour may
differ from the first because `patch_coqpit()` has rebound coqpit's
`_deserialize` in the interim; `coqpit_patch_ok` models `patch_coqpit()`'s
boolean return. -/
def patched_load_config (original_load_config retry_load_config : String → PyResult PyVal)
    (coqpit_patch_ok : Bool) (config_path : String) : PyResult PyVal :=
  match original_load_config config_path with
  | .ok c => .ok c
  | .error e =>
    if e.cls = ExcClass.typeError then
      if strHas e.msg "issubclass() arg 1 must be a class" then
        if coqpit_patch_ok then retry_load_config config_path
        else .error e
      else .error e
    else .error e

/-! ## pytorch_fix.py: patched_torch_load and patched_load_fsspec

```python
def patched_torch_load(f, map_location=None, pickle_module=pickle, **kwargs):
    if 'weights_only' not in kwargs:
        kwargs['weights_only'] = False
    return _original_torch_load(f, map_location=map_location,
                                pickle_module=pickle_module, **kwargs)

def patched_load_fsspec(model_path, map_location=None, **kwargs):
    if 'weights_only' not in kwargs:
        kwargs['weights_only'] = False
    return original_load_fsspec(model_path, map_location=map_location, **kwargs)
```
`**kwargs` is modelled as an association list with first-match lookup; the
wrappers are modelled as producing the exact argument tuple handed to the
delegate, which is all the claim about them observes. -/

/-- A Python `**kwargs` mapping: keyword names to values, first match wins
on lookup (Python dicts have unique keys, which first-match lookup
subsumes). -/
abbrev Kwargs := List (String × PyVal)

/-- Python's `k in kwargs`. -/
def hasKey (kwargs : Kwargs) (k : String) : Bool :=
  kwargs.any (fun p => p.1 == k)

/-- Python's `kwargs[k]` as an `Option`. -/
def lookupKw (kwargs : Kwargs) (k : String) : Option PyVal :=
  match kwargs with
  | [] => none
  | p :: rest => if p.1 == k then some p.2 else lookupKw rest k

/-- The argument tuple `patched_torch_load` passes to the original
`torch.load`. -/
structure TorchLoadCall where
  f : PyVal
  map_location : PyVal
  pickle_module : PyVal
  kwargs : Kwargs
deriving DecidableEq, Repr

/-- The body of `patched_torch_load`: the Python statement
`kwargs['weights_only'] = False` on a dict lacking the key adds that one
entry.  The result records exactly what the delegate receives. -/
def patched_torch_load (f map_location pickle_module : PyVal)
    (kwargs : Kwargs) : TorchLoadCall :=
  let kwargs2 :=
    if hasKey kwargs "weights_only" then kwargs
    else kwargs ++ [("weights_only", PyVal.vBool false)]
  ⟨f, map_location, pickle_module, kwargs2⟩

/-- The argument tuple `patched_load_fsspec` passes to the original
`load_fsspec`. -/
structure FsspecCall where
  model_path : PyVal
  map_location : PyVal
  kwargs : Kwargs
deriving DecidableEq, Repr

/-- The body of `patched_load_fsspec` (the same wrapper also appears inside
the import hook's loader). -/
def patched_load_fsspec (model_path map_location : PyVal)
    (kwargs : Kwargs) : FsspecCall :=
  let kwargs2 :=
    if hasKey kwargs "weights_only" then kwargs
    else kwargs ++ [("weights_only", PyVal.vBool false)]
  ⟨model_path, map_location, kwargs2⟩

/-! ## The patch-installation procedure as a state transformer

`compatibility_fix.apply_all_patches` and the module-level block of
`pytorch_fix.py` rebind global names.  A binding is modelled as a tree
recording the chain of wrappers around the library original; the only
marker attribute in the source is `_pytorch26_patched`, set on
`patched_torch_load` and tested with `hasattr(torch.load, ...)`. -/

/-- A currently bound callable: the library original, or a wrapper (named
after the wrapper function in the source, with its marker-attribute flag)
around whatever was bound when the wrapper was created. -/
inductive Binding where
  | orig (name : String)
  | wrapped (wrapper : String) (marked : Bool) (inner : Binding)
deriving DecidableEq, Repr

/-- `hasattr(b, '_pytorch26_patched')`: only a wrapper that set the marker
carries it; library originals do not. -/
def bindingMarked : Binding → Bool
  | .orig _ => false
  | .wrapped _ m _ => m

/-- The global bindings the patch procedure mutates, plus the number of
`TTSPatchImporter` instances inserted into `sys.meta_path`. -/
structure PatchState where
  issubclass_b : Binding
  deserialize_b : Binding
  load_config_b : Binding
  torch_load_b : Binding
  load_fsspec_b : Binding
  meta_path_hooks : Nat
deriving DecidableEq, Repr

/-- `patch_issubclass()`: captures the current `builtins.issubclass` and
rebinds it to `safe_issubclass`, unconditionally. -/
def run_patch_issubclass (s : PatchState) : PatchState :=
  { s with issubclass_b := .wrapped "safe_issubclass" false s.issubclass_b }

/-- `compatibility_fix.patch_coqpit()` on the happy path (coqpit and
`TTS.config` importable, `load_config` present): captures the current
`coqpit.coqpit._deserialize` and rebinds it to `safe_deserialize`, then
captures the current `TTS.config.load_config` and rebinds it to
`safe_load_config` — both unconditionally. -/
def run_patch_coqpit (s : PatchState) : PatchState :=
  { s with deserialize_b := .wrapped "safe_deserialize" false s.deserialize_b,
           load_config_b := .wrapped "safe_load_config" false s.load_config_b }

/-- The trailing block of `apply_all_patches` (lines 124-151): captures the
current `TTS.config.load_config` and rebinds it to another
`safe_load_config` wrapper, unconditionally. -/
def run_patch_load_config (s : PatchState) : PatchState :=
  { s with load_config_b := .wrapped "safe_load_config" false s.load_config_b }

/-- `apply_all_patches()`: `patch_issubclass()`, then `patch_coqpit()`,
then the direct `TTS.config.load_config` block. -/
def apply_all_patches (s : PatchState) : PatchState :=
  run_patch_load_config (run_patch_coqpit (run_patch_issubclass s))

/-- The guarded module-level block of `pytorch_fix.py` (lines 12-28):
`if not hasattr(torch.load, '_pytorch26_patched')`, capture `torch.load`,
wrap it, set the marker on the wrapper, and rebind. -/
def run_torch_load_block (s : PatchState) : PatchState :=
  if bindingMarked s.torch_load_b then s
  else { s with torch_load_b := .wrapped "patched_torch_load" true s.torch_load_b }

/-- `patch_tts_io()` on the happy path (`TTS.utils.io` importable with
`load_fsspec` present): captures the current binding and rebinds it to
`patched_load_fsspec`, unconditionally (no marker is set or tested). -/
def run_patch_tts_io (s : PatchState) : PatchState :=
  { s with load_fsspec_b := .wrapped "patched_load_fsspec" false s.load_fsspec_b }

/-- The whole module-level code of `pytorch_fix.py`: the guarded
`torch.load` block, `add_safe_globals()` (rebinds nothing), `patch_tts_io()`
and `sys.meta_path.insert(0, TTSPatchImporter())`. -/
def run_pytorch_fix_module (s : PatchState) : PatchState :=
  let s1 := run_torch_load_block s
  let s2 := run_patch_tts_io s1
  { s2 with meta_path_hooks := s2.meta_path_hooks + 1 }

/-- The full patch-installation procedure named by the idempotence claim:
`apply_all_patches` (run at import of `compatibility_fix`) plus the
module-level patch blocks of `pytorch_fix.py`. -/
def full_install (s : PatchState) : PatchState :=
  run_pytorch_fix_module (apply_all_patches s)

/-- The bindings before any patch runs: every target still holds the
library original and no import hook is installed. -/
def init_state : PatchState :=
  ⟨.orig "issubclass", .orig "coqpit._deserialize", .orig "TTS.config.load_config",
   .orig "torch.load", .orig "TTS.utils.io.load_fsspec", 0⟩

/-! ## pytorch_fix.py: the TTSPatchImporter import hook

```python
class TTSPatchImporter:
    def find_spec(self, fullname, path, target=None):
        if fullname == 'TTS.utils.io':
            spec = None
            for finder in sys.meta_path:
                if hasattr(finder, 'find_spec'):
                    spec = finder.find_spec(fullname, path, target)
                    if spec is not None:
                        break
            if spec is not None:
                original_loader = spec.loader
                def patched_loader(module): ...
                spec.loader = patched_loader
            return spec
        return None

sys.meta_path.insert(0, TTSPatchImporter())
```
The hook is installed at the FRONT of `sys.meta_path`, and its matching
branch iterates over `sys.meta_path` itself, so the recursion in the source
is unbounded; the embedding therefore threads a fuel counter that is spent
exactly when `find_spec` re-enters itself, and `none` (as opposed to
`some result`) means the call did not return within that recursion budget
— for no budget at all, in the theorems below. -/

/-- A module spec as the hook observes it: just its loader binding, which
is the only part the hook reads or rewrites. -/
structure ModSpec where
  loader : Binding
deriving DecidableEq, Repr

/-- An entry of `sys.meta_path`: the installed `TTSPatchImporter` instance
itself, or one of the interpreter's stock finders. -/
inductive Finder where
  | selfHook
  | defaultFinder
deriving DecidableEq, Repr

/-- The module name the hook matches on. -/
def hookTarget : String := "TTS.utils.io"

/-- What a stock interpreter finder returns from `find_spec`: a spec with
the module's normal loader for the target module, no opinion otherwise. -/
def defaultResolve (fullname : String) : Option ModSpec :=
  if fullname = hookTarget then some ⟨.orig "tts_utils_io_loader"⟩ else none

/-- The `for finder in sys.meta_path` loop inside the matching branch of
`find_spec`, with `break` on the first non-`None` spec.  `find_spec` is a
pure function of its arguments, so every encounter of the hook instance
itself inside the loop returns the same value; that value is passed in as
`selfResult` (computed by the caller at one less unit of recursion fuel),
with `none` meaning the self-call would still be recursing, which poisons
the whole loop. -/
def loop_over (selfResult : Option (Option ModSpec)) :
    List Finder → String → Option (Option ModSpec)
  | [], _ => some none
  | Finder.defaultFinder :: rest, fullname =>
    match defaultResolve fullname with
    | some sp => some (some sp)
    | none => loop_over selfResult rest fullname
  | Finder.selfHook :: rest, fullname =>
    match selfResult with
    | none => none
    | some (some sp) => some (some sp)
    | some none => loop_over selfResult rest fullname

/-- The tail of the matching branch: `if spec is not None:` capture
`spec.loader` and rebind it to `patched_loader`, then `return spec`;
recursion poison passes through. -/
def wrap_loop_result : Option (Option ModSpec) → Option (Option ModSpec)
  | none => none
  | some none => some none
  | some (some sp) => some (some ⟨Binding.wrapped "patched_loader" false sp.loader⟩)

/-- `TTSPatchImporter.find_spec(fullname, path)` with the given recursion
budget and `sys.meta_path` contents: on the matching name, run the loop over
`sys.meta_path` — in which a self-entry is this same function at one less
fuel — and, if the loop produced a spec, rewrite its loader to
`patched_loader`; on any other name return `None` immediately.  `none`
means the call is still recursing when the budget runs out. -/
def hook_find_spec : Nat → List Finder → String → Option (Option ModSpec)
  | 0, mp, fullname =>
    if fullname = hookTarget then wrap_loop_result (loop_over none mp fullname)
    else some none
  | Nat.succ f, mp, fullname =>
    if fullname = hookTarget then
      wrap_loop_result (loop_over (hook_find_spec f mp fullname) mp fullname)
    else some none

/-- `sys.meta_path` right after `pytorch_fix.py` runs: the hook instance at
index 0 (per `sys.meta_path.insert(0, ...)`), the stock finders after it. -/
def installed_meta_path : List Finder :=
  [Finder.selfHook, Finder.defaultFinder]

/-- The `TTS.utils.io` module object as the hook's loader observes it after
`original_loader.exec_module(module)` has run: its `load_fsspec` attribute
(`none` models `hasattr(module, 'load_fsspec')` being false). -/
structure TTSModule where
  load_fsspec_attr : Option Binding
deriving DecidableEq, Repr

/-- The tail of `patched_loader` after `original_loader.exec_module(module)`:
if the module has a `load_fsspec` attribute, capture it and rebind it to a
fresh `patched_load_fsspec` wrapper — unconditionally, with no marker test
on the current value. -/
def patched_loader_exec (module : TTSModule) : TTSModule :=
  match module.load_fsspec_attr with
  | none => module
  | some b => ⟨some (.wrapped "patched_load_fsspec" false b)⟩

/-! ## Concrete external collaborators used to instantiate witnesses

Modelled from the spec's external-interface table; each is one concrete
inhabitant of the corresponding collaborator contract. -/

/-- Modelled from the spec: a deserializer call that fails with coqpit's
"declared_type is not an actual type" condition, whatever its arguments. -/
def issubclass_error_deserialize : PyVal → PyVal → PyResult PyVal := fun _ _ =>
  .error ⟨ExcClass.typeError, "issubclass() arg 1 must be a class"⟩

/-- Modelled from the spec: a deserializer call that fails with the
type-mismatch condition for a `float | list[float]` field declaration. -/
def mismatch_error_deserialize : PyVal → PyVal → PyResult PyVal := fun _ _ =>
  .error ⟨ExcClass.typeError, "0.5 does not match the field type float | list[float]"⟩

/-- Modelled from the spec: a deserializer call failing outside every
recognized classification (wrong exception class entirely). -/
def unrelated_error_deserialize : PyVal → PyVal → PyResult PyVal := fun _ _ =>
  .error ⟨ExcClass.otherError, "CUDA error: out of memory"⟩

/-- Modelled from the spec: a config-loader call failing with a caught
exception class but an unrecognized message. -/
def unrelated_error_load_config : String → PyResult PyVal := fun _ =>
  .error ⟨ExcClass.typeError, "unsupported operand type(s) for +"⟩

/-- Modelled from the spec: a config-loader call failing with the
deserialization type-mismatch condition. -/
def mismatch_error_load_config : String → PyResult PyVal := fun _ =>
  .error ⟨ExcClass.valueError, "0.5 does not match the field type float | list[float]"⟩

/-- Modelled from the spec: a config-loader call failing with the
type-mismatch condition rendered as a `TypeError`. -/
def mismatch_typeerror_load_config : String → PyResult PyVal := fun _ =>
  .error ⟨ExcClass.typeError, "0.5 does not match the field type float | list[float]"⟩

/-- Modelled from the spec: `json.load` succeeding with a parsed mapping. -/
def json_load_stub : String → PyResult PyVal := fun _ => .ok (PyVal.vStr "config_dict")

/-- Modelled from the spec: `BaseTTSConfig().from_dict` populating the
empty config from the mapping and succeeding. -/
def from_dict_stub : PyVal → PyResult PyVal := fun d => .ok d

/-! ## Helper lemmas on keyword-argument lookup -/

/-- Membership test on a non-empty kwargs list, unfolded. -/
theorem hasKey_cons (p : String × PyVal) (rest : Kwargs) (k : String) :
    hasKey (p :: rest) k = ((p.1 == k) || hasKey rest k) := rfl

/-- Looking up a key absent from the left part of an appended kwargs list
falls through to the right part. -/
theorem lookupKw_append_of_not_has (xs ys : Kwargs) (k : String)
    (h : hasKey xs k = false) : lookupKw (xs ++ ys) k = lookupKw ys k := by
  induction xs with
  | nil => rfl
  | cons p rest ih =>
    rw [hasKey_cons] at h
    rcases Bool.or_eq_false_iff.mp h with ⟨h1, h2⟩
    simp only [List.cons_append, lookupKw, h1, Bool.false_eq_true, if_false]
    exact ih h2

/-- Appending a single entry with a different key does not change a
lookup. -/
theorem lookupKw_append_single_of_ne (xs : Kwargs) (k k0 : String) (v0 : PyVal)
    (h : k0 ≠ k) : lookupKw (xs ++ [(k0, v0)]) k = lookupKw xs k := by
  induction xs with
  | nil => simp [lookupKw, h]
  | cons p rest ih =>
    by_cases hpk : (p.1 == k) = true
    · simp [lookupKw, hpk]
    · simp only [List.cons_append, lookupKw]
      rw [if_neg (by simp_all), if_neg (by simp_all)]
      exact ih

/-! ## Claim theorems -/

/-- C4: for every first argument that is not a class and every second
argument, when the original predicate raises a `TypeError` the wrapped
`safe_issubclass` returns `false` instead of letting the error
propagate. -/
theorem C4_nonclass_first_arg_returns_false
    (original_issubclass : PyVal → PyVal → PyResult Bool) (a b : PyVal) (e : PyExc)
    (ha : isClass a = false) (hr : original_issubclass a b = .error e)
    (he : e.cls = ExcClass.typeError) :
    safe_issubclass original_issubclass a b = .ok false := by
  simp [safe_issubclass, hr, he, ha]

/-- Witness for C4: `related(42, SomeType)` — `issubclass` with a plain
integer first argument — returns `false` without raising, under the
spec-modelled external predicate. -/
theorem C4_witness :
    safe_issubclass builtin_issubclass_model (PyVal.vInt 42) (PyVal.vClass "SomeType")
      = .ok false :=
  C4_nonclass_first_arg_returns_false builtin_issubclass_model (PyVal.vInt 42)
    (PyVal.vClass "SomeType") ⟨ExcClass.typeError, "issubclass() arg 1 must be a class"⟩
    rfl rfl rfl

/-- C5: for every first argument that IS a class, the wrapped
`safe_issubclass` observably equals the original predicate: same boolean
when the original returns, and the original's exception re-raised unchanged
when it raises (whatever its class). -/
theorem C5_class_first_arg_transparent
    (original_issubclass : PyVal → PyVal → PyResult Bool) (a b : PyVal)
    (ha : isClass a = true) :
    safe_issubclass original_issubclass a b = original_issubclass a b := by
  cases h : original_issubclass a b with
  | ok r => simp [safe_issubclass, h]
  | error e =>
    by_cases he : e.cls = ExcClass.typeError <;>
      simp [safe_issubclass, h, he, ha]

/-- Witness for C5: on two concrete classes the guard's verdict is exactly
the original predicate's. -/
theorem C5_witness :
    safe_issubclass builtin_issubclass_model (PyVal.vClass "A") (PyVal.vClass "B")
      = builtin_issubclass_model (PyVal.vClass "A") (PyVal.vClass "B") :=
  C5_class_first_arg_transparent builtin_issubclass_model
    (PyVal.vClass "A") (PyVal.vClass "B") rfl

/-- C3: for every call to the wrapped checkpoint loaders: when the caller's
keyword options lack `weights_only` the delegate receives
`weights_only=False`; when the caller supplied it, the options reach the
delegate exactly as given; and in both cases the positional arguments
(`f`/`model_path`, `map_location`, `pickle_module`) and every other keyword
option arrive unmodified. -/
theorem C3_weights_only_defaulted
    (f ml pm mp : PyVal) (kw : Kwargs) :
    ((patched_torch_load f ml pm kw).f = f ∧
     (patched_torch_load f ml pm kw).map_location = ml ∧
     (patched_torch_load f ml pm kw).pickle_module = pm) ∧
    (hasKey kw "weights_only" = false →
      lookupKw (patched_torch_load f ml pm kw).kwargs "weights_only"
        = some (PyVal.vBool false)) ∧
    (hasKey kw "weights_only" = true →
      (patched_torch_load f ml pm kw).kwargs = kw) ∧
    (∀ k, k ≠ "weights_only" →
      lookupKw (patched_torch_load f ml pm kw).kwargs k = lookupKw kw k) ∧
    ((patched_load_fsspec mp ml kw).model_path = mp ∧
     (patched_load_fsspec mp ml kw).map_location = ml) ∧
    (hasKey kw "weights_only" = false →
      lookupKw (patched_load_fsspec mp ml kw).kwargs "weights_only"
        = some (PyVal.vBool false)) ∧
    (hasKey kw "weights_only" = true →
      (patched_load_fsspec mp ml kw).kwargs = kw) ∧
    (∀ k, k ≠ "weights_only" →
      lookupKw (patched_load_fsspec mp ml kw).kwargs k = lookupKw kw k) := by
  refine ⟨⟨rfl, rfl, rfl⟩, ?_, ?_, ?_, ⟨rfl, rfl⟩, ?_, ?_, ?_⟩
  · intro h
    simp only [patched_torch_load, h, Bool.false_eq_true, if_false]
    rw [lookupKw_append_of_not_has _ _ _ h]
    rfl
  · intro h
    simp [patched_torch_load, h]
  · intro k hk
    by_cases h : hasKey kw "weights_only"
    · simp [patched_torch_load, h]
    · simp only [patched_torch_load, h, Bool.false_eq_true, if_false]
      exact lookupKw_append_single_of_ne kw k "weights_only" (PyVal.vBool false)
        (fun hkk => hk hkk.symm)
  · intro h
    simp only [patched_load_fsspec, h, Bool.false_eq_true, if_false]
    rw [lookupKw_append_of_not_has _ _ _ h]
    rfl
  · intro h
    simp [patched_load_fsspec, h]
  · intro k hk
    by_cases h : hasKey kw "weights_only"
    · simp [patched_load_fsspec, h]
    · simp only [patched_load_fsspec, h, Bool.false_eq_true, if_false]
      exact lookupKw_append_single_of_ne kw k "weights_only" (PyVal.vBool false)
        (fun hkk => hk hkk.symm)

/-- Witness for C3: with caller options `{strict: True}` and no
`weights_only`, the delegate receives `weights_only=False` while `strict`
passes through unmodified. -/
theorem C3_witness :
    lookupKw (patched_torch_load (PyVal.vStr "model.pth") PyVal.vNone
        (PyVal.vStr "pickle") [("strict", PyVal.vBool true)]).kwargs "weights_only"
      = some (PyVal.vBool false) ∧
    lookupKw (patched_torch_load (PyVal.vStr "model.pth") PyVal.vNone
        (PyVal.vStr "pickle") [("strict", PyVal.vBool true)]).kwargs "strict"
      = lookupKw [("strict", PyVal.vBool true)] "strict" :=
  ⟨(C3_weights_only_defaulted (PyVal.vStr "model.pth") PyVal.vNone (PyVal.vStr "pickle")
      (PyVal.vStr "model.pth") [("strict", PyVal.vBool true)]).2.1 (by decide),
   (C3_weights_only_defaulted (PyVal.vStr "model.pth") PyVal.vNone (PyVal.vStr "pickle")
      (PyVal.vStr "model.pth") [("strict", PyVal.vBool true)]).2.2.2.1 "strict" (by decide)⟩

/-- C6: for every numeric-scalar value and every declared type whose
mismatch failure identifies the `float | list[float]` union,
`safe_deserialize` returns the value unchanged instead of propagating the
"does not match field type" failure. -/
theorem C6_float_union_mismatch_passthrough
    (original_deserialize : PyVal → PyVal → PyResult PyVal) (x field_type : PyVal)
    (e : PyExc)
    (hx : isFloat x = true)
    (hr : original_deserialize x field_type = .error e)
    (hc : e.cls = ExcClass.typeError ∨ e.cls = ExcClass.valueError)
    (hni : strHas e.msg "issubclass() arg 1 must be a class" = false)
    (hm1 : strHas e.msg "does not match" = true)
    (hm2 : strHas e.msg "field type" = true)
    (hm3 : strHas e.msg "float | list[float]" = true) :
    safe_deserialize original_deserialize x field_type = .ok x := by
  rcases hc with hc | hc <;>
    simp [safe_deserialize, hr, hc, hni, hm1, hm2, hm3, hx]

/-- Witness for C6: the float `0.5` against a `float | list[float]` field
declaration is accepted unchanged. -/
theorem C6_witness :
    safe_deserialize mismatch_error_deserialize (PyVal.vFloat 5)
        (PyVal.vStr "float | list[float]") = .ok (PyVal.vFloat 5) :=
  C6_float_union_mismatch_passthrough mismatch_error_deserialize (PyVal.vFloat 5)
    (PyVal.vStr "float | list[float]")
    ⟨ExcClass.typeError, "0.5 does not match the field type float | list[float]"⟩
    rfl rfl (Or.inl rfl) (by decide) (by decide) (by decide) (by decide)

/-- C7 counterexample: `tts_config_fix.patched_deserialize` — one of the two
wrapped deserializers the claim covers — returns the value unchanged on the
"issubclass() arg 1 must be a class" failure even though the declared type
IS a class, where the claim requires the failure to be re-raised. -/
theorem C7_counterexample :
    isClass (PyVal.vClass "BaseDatasetConfig") = true ∧
    patched_deserialize issubclass_error_deserialize (PyVal.vInt 1)
        (PyVal.vClass "BaseDatasetConfig") = .ok (PyVal.vInt 1) :=
  ⟨rfl, rfl⟩

/-- C7 (amended): on the "issubclass() arg 1 must be a class" `TypeError`,
`compatibility_fix.safe_deserialize` returns the value unchanged exactly
when the declared type is not a class and re-raises when it is, while
`tts_config_fix.patched_deserialize` returns the value unconditionally,
with no test on the declared type. -/
theorem C7_amended_issubclass_error_policy
    (original_deserialize : PyVal → PyVal → PyResult PyVal) (x field_type : PyVal)
    (e : PyExc)
    (hr : original_deserialize x field_type = .error e)
    (hc : e.cls = ExcClass.typeError)
    (hm : strHas e.msg "issubclass() arg 1 must be a class" = true) :
    (isClass field_type = false →
       safe_deserialize original_deserialize x field_type = .ok x) ∧
    (isClass field_type = true →
       safe_deserialize original_deserialize x field_type = .error e) ∧
    patched_deserialize original_deserialize x field_type = .ok x := by
  refine ⟨fun hft => ?_, fun hft => ?_, ?_⟩
  · simp [safe_deserialize, hr, hc, hm, hft]
  · simp [safe_deserialize, hr, hc, hm, hft]
  · simp [patched_deserialize, hr, hc, hm]

/-- Witness for C7 (amended): with a non-class field declaration both
wrappers accept the value unchanged. -/
theorem C7_witness :
    safe_deserialize issubclass_error_deserialize (PyVal.vInt 1)
        (PyVal.vStr "NotAClass") = .ok (PyVal.vInt 1) ∧
    patched_deserialize issubclass_error_deserialize (PyVal.vInt 1)
        (PyVal.vStr "NotAClass") = .ok (PyVal.vInt 1) :=
  ⟨(C7_amended_issubclass_error_policy issubclass_error_deserialize (PyVal.vInt 1)
      (PyVal.vStr "NotAClass") ⟨ExcClass.typeError, "issubclass() arg 1 must be a class"⟩
      rfl rfl (by decide)).1 rfl,
   (C7_amended_issubclass_error_policy issubclass_error_deserialize (PyVal.vInt 1)
      (PyVal.vStr "NotAClass") ⟨ExcClass.typeError, "issubclass() arg 1 must be a class"⟩
      rfl rfl (by decide)).2.2⟩

/-- C8: every failure of the wrapped deserializer or config loader matching
none of the recognized message classifications — and every exception outside
the intercepted `TypeError`/`ValueError` classes — is re-raised to the
caller unchanged. -/
theorem C8_unrecognized_failures_reraised
    (original_deserialize : PyVal → PyVal → PyResult PyVal)
    (original_load_config json_load : String → PyResult PyVal)
    (base_config_from_dict : PyVal → PyResult PyVal)
    (x field_type : PyVal) (config_path : String) (e1 e2 : PyExc)
    (hr1 : original_deserialize x field_type = .error e1)
    (hu1 : (e1.cls ≠ ExcClass.typeError ∧ e1.cls ≠ ExcClass.valueError) ∨
           (strHas e1.msg "issubclass() arg 1 must be a class" = false ∧
            (strHas e1.msg "does not match" = false ∨
             strHas e1.msg "field type" = false)))
    (hr2 : original_load_config config_path = .error e2)
    (hu2 : (e2.cls ≠ ExcClass.typeError ∧ e2.cls ≠ ExcClass.valueError) ∨
           (strHas e2.msg "does not match" = false ∨
            strHas e2.msg "field type" = false)) :
    safe_deserialize original_deserialize x field_type = .error e1 ∧
    safe_load_config original_load_config json_load base_config_from_dict
      config_path = .error e2 := by
  constructor
  · rcases hu1 with ⟨h1, h2⟩ | ⟨h1, h2 | h2⟩ <;>
      simp [safe_deserialize, hr1, h1, h2]
  · rcases hu2 with ⟨h1, h2⟩ | h2 | h2
    · simp [safe_load_config, hr2, h1, h2]
    · simp [safe_load_config, hr2, h2]
    · simp [safe_load_config, hr2, h2]

/-- Witness for C8: a non-intercepted exception class from the deserializer
and an unrecognized message from the config loader both come back
unchanged. -/
theorem C8_witness :
    safe_deserialize unrelated_error_deserialize (PyVal.vInt 3) (PyVal.vStr "ft")
      = .error ⟨ExcClass.otherError, "CUDA error: out of memory"⟩ ∧
    safe_load_config unrelated_error_load_config json_load_stub from_dict_stub
      "config.json" = .error ⟨ExcClass.typeError, "unsupported operand type(s) for +"⟩ :=
  C8_unrecognized_failures_reraised unrelated_error_deserialize
    unrelated_error_load_config json_load_stub from_dict_stub
    (PyVal.vInt 3) (PyVal.vStr "ft") "config.json"
    ⟨ExcClass.otherError, "CUDA error: out of memory"⟩
    ⟨ExcClass.typeError, "unsupported operand type(s) for +"⟩
    rfl (Or.inl ⟨by decide, by decide⟩)
    rfl (Or.inr (Or.inl (by decide)))

/-- C9 counterexample: `tts_config_fix.patched_load_config` — the other
wrapped config loader the claim covers — performs no manual reload on a
"does not match … field type" failure: a `ValueError` carrying that
message is not caught at all, and a `TypeError` carrying it fails the
issubclass-message test and is re-raised unchanged, even when the coqpit
re-patch fallback is available. -/
theorem C9_counterexample :
    patched_load_config mismatch_error_load_config mismatch_error_load_config
        true "config.json"
      = .error ⟨ExcClass.valueError,
          "0.5 does not match the field type float | list[float]"⟩ ∧
    patched_load_config mismatch_typeerror_load_config
        mismatch_typeerror_load_config true "config.json"
      = .error ⟨ExcClass.typeError,
          "0.5 does not match the field type float | list[float]"⟩ :=
  ⟨rfl, rfl⟩

/-- C9 (amended): on a "does not match … field type" failure
`compatibility_fix.safe_load_config` performs exactly one manual reload —
parse the file as JSON and populate an empty base config from the mapping —
and returns its outcome, so a failure of the manual reload propagates with
no further fallback tier, and on a successful delegate call the delegate's
result is returned with no manual reload; `tts_config_fix.patched_load_config`,
by contrast, re-raises such a failure unchanged with no manual reload — a
`ValueError` is not even caught, and a `TypeError` not carrying the
issubclass message is re-raised (its only fallback, re-running
`patch_coqpit` and retrying the delegate, triggers on the issubclass
message alone). -/
theorem C9_manual_reload_policy
    (original_load_config retry_load_config json_load : String → PyResult PyVal)
    (base_config_from_dict : PyVal → PyResult PyVal)
    (coqpit_patch_ok : Bool) (config_path : String) :
    (∀ c, original_load_config config_path = .ok c →
       safe_load_config original_load_config json_load base_config_from_dict
         config_path = .ok c) ∧
    (∀ e, original_load_config config_path = .error e →
       (e.cls = ExcClass.typeError ∨ e.cls = ExcClass.valueError) →
       strHas e.msg "does not match" = true →
       strHas e.msg "field type" = true →
       (∀ je, json_load config_path = .error je →
          safe_load_config original_load_config json_load base_config_from_dict
            config_path = .error je) ∧
       (∀ d, json_load config_path = .ok d →
          safe_load_config original_load_config json_load base_config_from_dict
            config_path = base_config_from_dict d)) ∧
    (∀ e, original_load_config config_path = .error e →
       e.cls = ExcClass.valueError →
       patched_load_config original_load_config retry_load_config
         coqpit_patch_ok config_path = .error e) ∧
    (∀ e, original_load_config config_path = .error e →
       e.cls = ExcClass.typeError →
       strHas e.msg "issubclass() arg 1 must be a class" = false →
       patched_load_config original_load_config retry_load_config
         coqpit_patch_ok config_path = .error e) := by
  refine ⟨?_, ?_, ?_, ?_⟩
  · intro c hc
    simp [safe_load_config, hc]
  · intro e he hcls hm1 hm2
    constructor
    · intro je hje
      rcases hcls with h | h <;> simp [safe_load_config, he, h, hm1, hm2, hje]
    · intro d hd
      rcases hcls with h | h <;> simp [safe_load_config, he, h, hm1, hm2, hd]
  · intro e he hcls
    simp [patched_load_config, he, hcls]
  · intro e he hcls hmsg
    simp [patched_load_config, he, hcls, hmsg]

/-- Witness for C9 (amended): a mismatch failure into `safe_load_config`,
followed by a successful JSON parse and populate, yields the populated
config object, while the same `TypeError` mismatch failure into
`patched_load_config` comes straight back. -/
theorem C9_witness :
    safe_load_config mismatch_error_load_config json_load_stub from_dict_stub
      "config.json" = .ok (PyVal.vStr "config_dict") ∧
    patched_load_config mismatch_typeerror_load_config
        mismatch_typeerror_load_config true "config.json"
      = .error ⟨ExcClass.typeError,
          "0.5 does not match the field type float | list[float]"⟩ :=
  ⟨((C9_manual_reload_policy mismatch_error_load_config mismatch_error_load_config
        json_load_stub from_dict_stub true "config.json").2.1
      ⟨ExcClass.valueError, "0.5 does not match the field type float | list[float]"⟩
      rfl (Or.inr rfl) (by decide) (by decide)).2 (PyVal.vStr "config_dict") rfl,
   (C9_manual_reload_policy mismatch_typeerror_load_config
        mismatch_typeerror_load_config json_load_stub from_dict_stub true
        "config.json").2.2.2
      ⟨ExcClass.typeError, "0.5 does not match the field type float | list[float]"⟩
      rfl rfl (by decide)⟩

/-! ## Helper lemmas on the import hook and the patch state -/

/-- With the hook instance at the front of `sys.meta_path`, its `find_spec`
on the target name re-enters itself with identical arguments, so no
recursion budget suffices for it to return. -/
theorem hook_find_spec_self_front_none (fuel : Nat) (rest : List Finder) :
    hook_find_spec fuel (Finder.selfHook :: rest) hookTarget = none := by
  induction fuel with
  | zero => rfl
  | succ f ih =>
    simp [hook_find_spec, ih, loop_over, wrap_loop_result]

/-- After the `pytorch_fix` module block runs once, `torch.load` carries the
`_pytorch26_patched` marker. -/
theorem run_torch_load_block_marked (s : PatchState) :
    bindingMarked (run_torch_load_block s).torch_load_b = true := by
  unfold run_torch_load_block
  by_cases h : bindingMarked s.torch_load_b = true
  · rw [if_pos h]; exact h
  · rw [if_neg h]; rfl

/-- The guarded `torch.load` block rebinds nothing but `torch.load`. -/
theorem run_torch_load_block_other_fields (s : PatchState) :
    (run_torch_load_block s).issubclass_b = s.issubclass_b ∧
    (run_torch_load_block s).deserialize_b = s.deserialize_b ∧
    (run_torch_load_block s).load_config_b = s.load_config_b ∧
    (run_torch_load_block s).load_fsspec_b = s.load_fsspec_b ∧
    (run_torch_load_block s).meta_path_hooks = s.meta_path_hooks := by
  by_cases h : bindingMarked s.torch_load_b <;>
    simp [run_torch_load_block, h]

/-- One run of the full installation: `torch.load` gets (or keeps) its
marker-guarded wrapper, every other target gets one more unconditional
wrapper (`load_config` two, once inside `patch_coqpit` and once in
`apply_all_patches`' own block), and one more hook instance lands in
`sys.meta_path`. -/
theorem full_install_fields (t : PatchState) :
    (full_install t).torch_load_b = (run_torch_load_block t).torch_load_b ∧
    (full_install t).issubclass_b
      = .wrapped "safe_issubclass" false t.issubclass_b ∧
    (full_install t).deserialize_b
      = .wrapped "safe_deserialize" false t.deserialize_b ∧
    (full_install t).load_config_b
      = .wrapped "safe_load_config" false
          (.wrapped "safe_load_config" false t.load_config_b) ∧
    (full_install t).load_fsspec_b
      = .wrapped "patched_load_fsspec" false t.load_fsspec_b ∧
    (full_install t).meta_path_hooks = t.meta_path_hooks + 1 := by
  have hother := run_torch_load_block_other_fields (apply_all_patches t)
  refine ⟨?_, ?_, ?_, ?_, ?_, ?_⟩
  · show (run_torch_load_block (apply_all_patches t)).torch_load_b
      = (run_torch_load_block t).torch_load_b
    unfold run_torch_load_block
    by_cases h : bindingMarked t.torch_load_b = true
    · rw [if_pos (show bindingMarked (apply_all_patches t).torch_load_b = true from h),
        if_pos h]
      rfl
    · rw [if_neg (show ¬ bindingMarked (apply_all_patches t).torch_load_b = true from h),
        if_neg h]
      rfl
  · show (run_torch_load_block (apply_all_patches t)).issubclass_b = _
    rw [hother.1]; rfl
  · show (run_torch_load_block (apply_all_patches t)).deserialize_b = _
    rw [hother.2.1]; rfl
  · show (run_torch_load_block (apply_all_patches t)).load_config_b = _
    rw [hother.2.2.1]; rfl
  · show Binding.wrapped "patched_load_fsspec" false
        (run_torch_load_block (apply_all_patches t)).load_fsspec_b = _
    rw [hother.2.2.2.1]; rfl
  · show (run_torch_load_block (apply_all_patches t)).meta_path_hooks + 1 = _
    rw [hother.2.2.2.2]; rfl

/-- C10 (code bug witnessed): with the hook installed at the front of
`sys.meta_path` — exactly how `pytorch_fix.py` installs it — `find_spec` on
'TTS.utils.io' never terminates for any recursion budget, because the
`for finder in sys.meta_path` loop re-enters the hook's own `find_spec`
with identical arguments before ever reaching a stock finder; whereas over
the stock finders alone the very same procedure returns a spec whose loader
has been rewritten to the patching loader, which is the behaviour the claim
(and the code's own "use the default importer" comment) describes. -/
theorem C10_find_spec_diverges :
    (∀ fuel : Nat, hook_find_spec fuel installed_meta_path hookTarget = none) ∧
    hook_find_spec 1 [Finder.defaultFinder] hookTarget
      = some (some ⟨.wrapped "patched_loader" false (.orig "tts_utils_io_loader")⟩) :=
  ⟨fun fuel => hook_find_spec_self_front_none fuel [Finder.defaultFinder], rfl⟩

/-- C2 counterexample: the hook never reaches the "applied" state on a
first import of 'TTS.utils.io' (its `find_spec` does not return under the
installed `sys.meta_path`, here at recursion budget 50), and the wrap step
of its loader is unconditional — run against a module whose `load_fsspec`
is already the patched wrapper, it wraps the wrapper again rather than
skipping. -/
theorem C2_counterexample :
    hook_find_spec 50 installed_meta_path hookTarget = none ∧
    patched_loader_exec
        ⟨some (.wrapped "patched_load_fsspec" false (.orig "load_fsspec"))⟩
      = ⟨some (.wrapped "patched_load_fsspec" false
          (.wrapped "patched_load_fsspec" false (.orig "load_fsspec")))⟩ :=
  ⟨hook_find_spec_self_front_none 50 [Finder.defaultFinder], rfl⟩

/-- C2 (amended): the hook keeps no per-name firing state — `find_spec` is
a pure function of its arguments that returns `None` ("no opinion") for
every module name other than 'TTS.utils.io', so non-matching imports are
never interfered with; on the matching name its loader wrap is
unconditional, wrapping whatever `load_fsspec` currently holds, so nothing
makes the hook inert after a first application. -/
theorem C2_amended_hook_stateless
    (fuel : Nat) (mp : List Finder) (fullname : String) (b : Binding)
    (h : fullname ≠ hookTarget) :
    hook_find_spec fuel mp fullname = some none ∧
    patched_loader_exec ⟨some b⟩
      = ⟨some (.wrapped "patched_load_fsspec" false b)⟩ := by
  constructor
  · cases fuel <;> simp [hook_find_spec, h]
  · rfl

/-- Witness for C2 (amended): an import of `numpy` gets "no opinion" from
the hook, and one run of the loader wrap adds exactly one wrapper. -/
theorem C2_witness :
    hook_find_spec 3 installed_meta_path "numpy" = some none ∧
    patched_loader_exec ⟨some (.orig "load_fsspec")⟩
      = ⟨some (.wrapped "patched_load_fsspec" false (.orig "load_fsspec"))⟩ :=
  C2_amended_hook_stateless 3 installed_meta_path "numpy" (.orig "load_fsspec")
    (by decide)

/-- C1 counterexample: running the full patch-installation procedure a
second time from the pristine initial bindings does not leave the
`issubclass` binding identical — it wraps the first run's
`safe_issubclass` wrapper in another instance of itself. -/
theorem C1_counterexample :
    (full_install (full_install init_state)).issubclass_b
      ≠ (full_install init_state).issubclass_b ∧
    (full_install (full_install init_state)).issubclass_b
      = .wrapped "safe_issubclass" false
          ((full_install init_state).issubclass_b) := by
  constructor
  · decide
  · rfl

/-- C1 (amended): only the `torch.load` patch detects an existing wrapper
(via the `_pytorch26_patched` marker) and is skipped on a second run of the
full installation procedure; every other binding is wrapped again on the
second run — `issubclass`, the coqpit deserializer and `load_fsspec` each
gain one more wrapper around the first run's wrapper, `load_config` gains
two more (it is wrapped twice per run, once inside `patch_coqpit` and once
by `apply_all_patches`' own block), and one more import-hook instance is
inserted into `sys.meta_path`. -/
theorem C1_amended_only_torch_load_guarded (s : PatchState) :
    (full_install (full_install s)).torch_load_b = (full_install s).torch_load_b ∧
    (full_install (full_install s)).issubclass_b
      = .wrapped "safe_issubclass" false ((full_install s).issubclass_b) ∧
    (full_install (full_install s)).deserialize_b
      = .wrapped "safe_deserialize" false ((full_install s).deserialize_b) ∧
    (full_install (full_install s)).load_config_b
      = .wrapped "safe_load_config" false
          (.wrapped "safe_load_config" false ((full_install s).load_config_b)) ∧
    (full_install (full_install s)).load_fsspec_b
      = .wrapped "patched_load_fsspec" false ((full_install s).load_fsspec_b) ∧
    (full_install (full_install s)).meta_path_hooks
      = (full_install s).meta_path_hooks + 1 := by
  have hf := full_install_fields (full_install s)
  refine ⟨?_, hf.2.1, hf.2.2.1, hf.2.2.2.1, hf.2.2.2.2.1, hf.2.2.2.2.2⟩
  rw [hf.1]
  have hm : bindingMarked (full_install s).torch_load_b = true := by
    rw [(full_install_fields s).1]
    exact run_torch_load_block_marked s
  unfold run_torch_load_block
  rw [if_pos hm]
